import Mathlib

/-!
# Verification of the econ chain-analysis core (`scripts/analyze_econ_chains.py`)

A shallow embedding of the aggregation-and-classification engine of the
repository: per-good market aggregation (`aggregate_goods`), per-facility-type
aggregation (`aggregate_facilities`), the chain classifier (`classify_chain`),
and the global signal summarizer of `print_global_section`.

Python floats are modelled as rationals (`ℚ`); the `math.inf` value produced
by the ratio properties is modelled by the two-constructor type `ERat`.
Python scalar JSON values (as they arrive from `json.load`) are modelled by
`PyVal`; a missing dictionary key is `Option.none`.
-/

set_option linter.unusedVariables false

/-- A scalar value as found in a parsed JSON dump: `None`, a bool, a number
(Python int/float, modelled as `ℚ`) or a string. -/
inductive PyVal where
  | vnone : PyVal
  | vbool : Bool → PyVal
  | vnum : ℚ → PyVal
  | vstr : String → PyVal
  deriving DecidableEq, Repr

/-- Python truthiness (`bool(v)`) of a scalar value: `None`, `False`, `0`,
and the empty string are falsy. -/
def PyVal.truthy : PyVal → Bool
  | .vnone => false
  | .vbool b => b
  | .vnum q => q ≠ 0
  | .vstr s => s ≠ ""

/-- Truthiness of `d.get(k)`: a missing key yields `None`, which is falsy. -/
def truthyOpt : Option PyVal → Bool
  | Option.none => false
  | some v => v.truthy

/-- Numeric value of a decimal string, as Python `float(s)` reads it
(`"12"`, `"12.5"`, `".5"`, `"3."`); `Option.none` when the string does not
parse. (Exotic float syntax such as exponents is not used by the dumps.) -/
def decFloat? (s : String) : Option ℚ :=
  match s.splitOn "." with
  | [a] => (a.toNat?).map (fun n => (n : ℚ))
  | [a, b] =>
      if a = "" && b = "" then Option.none
      else
        match (if a = "" then some 0 else a.toNat?),
              (if b = "" then some 0 else b.toNat?) with
        | some n, some f => some ((n : ℚ) + (f : ℚ) / (10 : ℚ) ^ b.length)
        | _, _ => Option.none
  | _ => Option.none

/-- `float(s)` over a whole (possibly signed, possibly padded) string. -/
def strFloat? (s : String) : Option ℚ :=
  let t := s.trim
  if t.startsWith "-" then (decFloat? (t.drop 1)).map (fun q => -q)
  else if t.startsWith "+" then decFloat? (t.drop 1)
  else decFloat? t

/-- `safe_float` from the source: `None` coerces to `0.0`, numbers pass
through, bools coerce as `float(True) = 1.0`, strings parse as floats with
unparsable values coerced to `0.0`. -/
def safe_float : PyVal → ℚ
  | .vnone => 0
  | .vbool b => if b then 1 else 0
  | .vnum q => q
  | .vstr s => (strFloat? s).getD 0

/-- A ratio value that may be `math.inf`. -/
inductive ERat where
  | fin : ℚ → ERat
  | inf : ERat
  deriving DecidableEq, Repr

/-- `x ≥ c` for a possibly-infinite `x` and a finite threshold `c`
(Python: `inf >= c` is `True`). -/
def ERat.geQ : ERat → ℚ → Bool
  | .inf, _ => true
  | .fin q, c => c ≤ q

/-- `x < c` for a possibly-infinite `x` and a finite threshold `c`
(Python: `inf < c` is `False`). -/
def ERat.ltQ : ERat → ℚ → Bool
  | .inf, _ => false
  | .fin q, c => q < c

/-- `GoodMetrics`: the per-good accumulator record of the source. -/
structure GoodMetrics where
  supply : ℚ := 0
  demand : ℚ := 0
  volume : ℚ := 0
  prices : List ℚ := []
  active_markets : ℕ := 0
  short_markets : ℕ := 0
  excess_markets : ℕ := 0
  deriving DecidableEq, Repr

/-- `GoodMetrics.demand_over_supply`: `inf` if `supply ≤ 0 < demand`, `0.0`
if `supply ≤ 0` and `demand ≤ 0`, else `demand / supply`. -/
def GoodMetrics.demand_over_supply (gm : GoodMetrics) : ERat :=
  if gm.supply ≤ 0 then (if 0 < gm.demand then ERat.inf else ERat.fin 0)
  else ERat.fin (gm.demand / gm.supply)

/-- `GoodMetrics.supply_over_demand`, symmetric to `demand_over_supply`. -/
def GoodMetrics.supply_over_demand (gm : GoodMetrics) : ERat :=
  if gm.demand ≤ 0 then (if 0 < gm.supply then ERat.inf else ERat.fin 0)
  else ERat.fin (gm.supply / gm.demand)

/-- `GoodMetrics.fill_ratio`: `1.0` when `demand ≤ 0`, else `volume/demand`. -/
def GoodMetrics.fill_ratio (gm : GoodMetrics) : ℚ :=
  if gm.demand ≤ 0 then 1 else gm.volume / gm.demand

/-- `GoodMetrics.short_fraction`: `0.0` when there are no active markets. -/
def GoodMetrics.short_fraction (gm : GoodMetrics) : ℚ :=
  if gm.active_markets = 0 then 0
  else (gm.short_markets : ℚ) / (gm.active_markets : ℚ)

/-- `GoodMetrics.excess_fraction`: `0.0` when there are no active markets. -/
def GoodMetrics.excess_fraction (gm : GoodMetrics) : ℚ :=
  if gm.active_markets = 0 then 0
  else (gm.excess_markets : ℚ) / (gm.active_markets : ℚ)

/-- `statistics.mean` of the price list (only meaningful when nonempty). -/
def GoodMetrics.price_mean (gm : GoodMetrics) : ℚ :=
  gm.prices.sum / (gm.prices.length : ℚ)

/-- `statistics.pstdev` squared: the population variance of the prices. -/
def GoodMetrics.price_pvar (gm : GoodMetrics) : ℚ :=
  (gm.prices.map (fun p => (p - gm.price_mean) ^ 2)).sum / (gm.prices.length : ℚ)

/-- The test `GoodMetrics.price_cv ≥ c` (for a threshold `0 < c`) without
square roots: `price_cv` is `0.0` when the price list is empty or its mean is
nonpositive, and `pstdev/mean` otherwise; for `mean > 0` and `c > 0`,
`pstdev/mean ≥ c` iff `pvariance ≥ c² · mean²` (both sides nonnegative). -/
def GoodMetrics.price_cv_ge (gm : GoodMetrics) (c : ℚ) : Bool :=
  if gm.prices.isEmpty then false
  else if gm.price_mean ≤ 0 then false
  else c ^ 2 * gm.price_mean ^ 2 ≤ gm.price_pvar

/-- `FacilityMetrics`: the per-facility-type accumulator record. -/
structure FacilityMetrics where
  count : ℕ := 0
  active_count : ℕ := 0
  workers : ℚ := 0
  labor_required : ℚ := 0
  efficiency_sum : ℚ := 0
  loss_days_sum : ℚ := 0
  wage_debt_sum : ℚ := 0
  deriving DecidableEq, Repr

/-- `FacilityMetrics.active_ratio`: `active_count/count`, `0.0` if no
instances. -/
def FacilityMetrics.active_ratio (fm : FacilityMetrics) : ℚ :=
  if 0 < fm.count then (fm.active_count : ℚ) / (fm.count : ℚ) else 0

/-- `FacilityMetrics.labor_fill`: `workers/labor_required`, `0.0` if
`labor_required ≤ 0`. -/
def FacilityMetrics.labor_fill (fm : FacilityMetrics) : ℚ :=
  if 0 < fm.labor_required then fm.workers / fm.labor_required else 0

/-- `FacilityMetrics.avg_efficiency`: `efficiency_sum/count`, `0.0` if no
instances. -/
def FacilityMetrics.avg_efficiency (fm : FacilityMetrics) : ℚ :=
  if 0 < fm.count then fm.efficiency_sum / (fm.count : ℚ) else 0

/-- Association-list lookup, modelling `dict.get(k)` (`none` when absent). -/
def alistGet? {α β : Type} [DecidableEq α] (k : α) : List (α × β) → Option β
  | [] => Option.none
  | (k', v) :: rest => if k' = k then some v else alistGet? k rest

/-- `dict.setdefault(k, d)` followed by an in-place update `f` of the entry:
updates the first binding of `k` with `f`, or appends `(k, f d)` if `k` is
unbound. -/
def alistUpdate {α β : Type} [DecidableEq α] (k : α) (d : β) (f : β → β) :
    List (α × β) → List (α × β)
  | [] => [(k, f d)]
  | (k', v) :: rest =>
      if k' = k then (k', f v) :: rest else (k', v) :: alistUpdate k d f rest

/-- The per-good payload of one market record (`{supply/supplyOffered,
demand, volume, price}`); each field is `none` when the key is missing. -/
structure GoodPayload where
  supplyOffered : Option PyVal := Option.none
  supply : Option PyVal := Option.none
  demand : Option PyVal := Option.none
  volume : Option PyVal := Option.none
  price : Option PyVal := Option.none
  deriving DecidableEq, Repr

/-- `safe_float(payload.get("supplyOffered", payload.get("supply", 0.0)))`. -/
def payload_supply (p : GoodPayload) : ℚ :=
  safe_float (p.supplyOffered.getD (p.supply.getD (PyVal.vnum 0)))

/-- `safe_float(payload.get("demand", 0.0))`. -/
def payload_demand (p : GoodPayload) : ℚ :=
  safe_float (p.demand.getD (PyVal.vnum 0))

/-- `safe_float(payload.get("volume", 0.0))`. -/
def payload_volume (p : GoodPayload) : ℚ :=
  safe_float (p.volume.getD (PyVal.vnum 0))

/-- `safe_float(payload.get("price", 0.0))`. -/
def payload_price (p : GoodPayload) : ℚ :=
  safe_float (p.price.getD (PyVal.vnum 0))

/-- One market record, reduced to the part `aggregate_goods` reads:
`market.get("goods") or {}` as an association list. -/
structure Market where
  goods : List (String × GoodPayload) := []
  deriving DecidableEq, Repr

/-- The body of the inner loop of `aggregate_goods`: fold one market's
payload for a good into its running `GoodMetrics`. -/
def updateGood (gm : GoodMetrics) (p : GoodPayload) : GoodMetrics :=
  let supply := payload_supply p
  let demand := payload_demand p
  let volume := payload_volume p
  let price := payload_price p
  let gm1 : GoodMetrics :=
    { gm with
      supply := gm.supply + supply
      demand := gm.demand + demand
      volume := gm.volume + volume
      prices := gm.prices ++ [price] }
  if 0 < supply ∨ 0 < demand then
    if supply * 1.05 < demand then
      { gm1 with
        active_markets := gm1.active_markets + 1
        short_markets := gm1.short_markets + 1 }
    else if demand * 1.05 < supply then
      { gm1 with
        active_markets := gm1.active_markets + 1
        excess_markets := gm1.excess_markets + 1 }
    else { gm1 with active_markets := gm1.active_markets + 1 }
  else gm1

/-- `aggregate_goods`: fold every market's per-good record into one running
summary per good id. -/
def aggregate_goods (markets : List Market) : List (String × GoodMetrics) :=
  markets.foldl
    (fun acc m =>
      m.goods.foldl
        (fun acc2 kv => alistUpdate kv.1 {} (fun gm => updateGood gm kv.2) acc2)
        acc)
    []

/-- One facility-instance record of a county, reduced to the fields the
aggregator reads; each field is `none` when the key is missing. -/
structure FacilityEntry where
  type : Option PyVal := Option.none
  active : Option PyVal := Option.none
  workers : Option PyVal := Option.none
  laborRequired : Option PyVal := Option.none
  efficiency : Option PyVal := Option.none
  consecutiveLossDays : Option PyVal := Option.none
  wageDebtDays : Option PyVal := Option.none
  deriving DecidableEq, Repr

/-- One county record: `county.get("facilities") or []`. -/
structure County where
  facilities : List FacilityEntry := []
  deriving DecidableEq, Repr

/-- Fold one facility entry into the metrics record of its type. -/
def facUpdate (fm : FacilityMetrics) (e : FacilityEntry) : FacilityMetrics :=
  { fm with
    count := fm.count + 1
    active_count := fm.active_count + (if truthyOpt e.active then 1 else 0)
    workers := fm.workers + safe_float (e.workers.getD (PyVal.vnum 0))
    labor_required :=
      fm.labor_required + safe_float (e.laborRequired.getD (PyVal.vnum 0))
    efficiency_sum :=
      fm.efficiency_sum + safe_float (e.efficiency.getD (PyVal.vnum 0))
    loss_days_sum :=
      fm.loss_days_sum + safe_float (e.consecutiveLossDays.getD (PyVal.vnum 0))
    wage_debt_sum :=
      fm.wage_debt_sum + safe_float (e.wageDebtDays.getD (PyVal.vnum 0)) }

/-- The body of the inner loop of `aggregate_facilities`: `entry.get("type")`
is tested for truthiness (`if not facility_type: continue`); a falsy type
skips the record, a truthy one keys the accumulator dictionary. -/
def facStep (facs : List (PyVal × FacilityMetrics)) (e : FacilityEntry) :
    List (PyVal × FacilityMetrics) :=
  match e.type with
  | Option.none => facs
  | some t =>
      if t.truthy then alistUpdate t {} (fun fm => facUpdate fm e) facs
      else facs

/-- `aggregate_facilities`: fold every county's facility records into one
running summary per facility type. -/
def aggregate_facilities (counties : List County) :
    List (PyVal × FacilityMetrics) :=
  counties.foldl (fun acc c => c.facilities.foldl facStep acc) []

/-- `ChainStage`: a label, the goods produced at this stage, and the facility
types that perform the stage's conversion. -/
structure ChainStage where
  label : String
  goods : List String
  facilities : List String
  deriving DecidableEq, Repr

/-- `ChainDef`: a named ordered sequence of stages. -/
structure ChainDef where
  name : String
  stages : List ChainStage
  deriving DecidableEq, Repr

/-- `chain.final_good` (`stages[-1].goods[0]`); `none` models the Python
`IndexError` on a degenerate chain with no stages or no last-stage goods. -/
def ChainDef.final_good? (c : ChainDef) : Option String :=
  c.stages.getLast?.bind (fun s => s.goods.head?)

/-- `chain.raw_goods` (`stages[0].goods`), empty for a stage-less chain. -/
def ChainDef.raw_goods (c : ChainDef) : List String :=
  (c.stages.head?.map ChainStage.goods).getD []

/-- `stage_totals`: summed supply, demand and volume of the listed goods;
goods absent from the mapping are skipped (contribute zero). -/
def stage_totals (goods : List (String × GoodMetrics)) (stage_goods : List String) :
    ℚ × ℚ × ℚ :=
  stage_goods.foldl
    (fun acc gid =>
      match alistGet? gid goods with
      | Option.none => acc
      | some gm => (acc.1 + gm.supply, acc.2.1 + gm.demand, acc.2.2 + gm.volume))
    (0, 0, 0)

/-- `weighted_facility_health`: count-weighted average `active_ratio` and
`labor_fill` over the listed facility types (types absent from the mapping or
with no instances are skipped), plus the total instance count; `(0, 0, 0)`
when no qualifying type has instances. The mapping is keyed by `PyVal`
because `aggregate_facilities` keys its dictionary by the raw (truthy)
`type` value; the string ids of a chain look up their `vstr` key. -/
def weighted_facility_health (facilities : List (PyVal × FacilityMetrics))
    (facility_ids : List String) : ℚ × ℚ × ℕ :=
  let t : ℕ × ℚ × ℚ :=
    facility_ids.foldl
      (fun acc fid =>
        match alistGet? (PyVal.vstr fid) facilities with
        | Option.none => acc
        | some fm =>
            if fm.count = 0 then acc
            else
              (acc.1 + fm.count,
               acc.2.1 + fm.active_ratio * (fm.count : ℚ),
               acc.2.2 + fm.labor_fill * (fm.count : ℚ)))
      ((0 : ℕ), (0 : ℚ), (0 : ℚ))
  if t.1 = 0 then (0, 0, 0)
  else (t.2.1 / (t.1 : ℚ), t.2.2 / (t.1 : ℚ), t.1)

/-- Round half to even, as Python `format` rounding does on exact values. -/
def roundHalfEven (q : ℚ) : ℤ :=
  let f := ⌊q⌋
  let r := q - (f : ℚ)
  if r < 1 / 2 then f
  else if 1 / 2 < r then f + 1
  else if f % 2 = 0 then f else f + 1

/-- Python `format(x, ".0%")`: the value times 100, rounded to an integer,
with a percent sign. -/
def fmtPct0 (q : ℚ) : String := toString (roundHalfEven (q * 100)) ++ "%"

/-- The facility types of every stage after the first (the list
`processing_facilities` built inside `classify_chain`). -/
def processingFacilityIds (chain : ChainDef) : List String :=
  ((chain.stages.drop 1).map ChainStage.facilities).flatten

/-- `classify_chain`: the seven-rule decision procedure, first matching rule
wins. `none` models the `IndexError` a degenerate chain (no stages, or no
goods in the last stage) would raise in `chain.final_good`. -/
def classify_chain (chain : ChainDef) (goods : List (String × GoodMetrics))
    (facilities : List (PyVal × FacilityMetrics)) : Option (String × String) :=
  match chain.stages.head?, chain.stages.getLast? with
  | some firstStage, some lastStage =>
    match lastStage.goods.head? with
    | Option.none => Option.none
    | some final_good =>
      let final : GoodMetrics := (alistGet? final_good goods).getD {}
      let rt := stage_totals goods firstStage.goods
      let raw_supply := rt.1
      let raw_demand := rt.2.1
      let wh := weighted_facility_health facilities (processingFacilityIds chain)
      let processing_active := wh.1
      let processing_fill := wh.2.1
      let processing_count := wh.2.2
      let raw_demand_over_supply : ERat :=
        if 0 < raw_supply then ERat.fin (raw_demand / raw_supply) else ERat.inf
      if final.demand ≤ 0 ∧ final.supply ≤ 0 then
        some ("NO_SIGNAL", "No demand and no supply in this dump.")
      else if final.supply ≤ 0 ∧ 0 < final.demand then
        if raw_supply ≤ 0 then
          some ("SYSTEMIC_UPSTREAM_GAP",
            "Demand exists but zero supply and zero upstream raw supply on-map; likely import/exogenous availability gap.")
        else
          some ("CHAIN_CONVERSION_BOTTLENECK",
            "Demand exists with zero final supply despite upstream presence; conversion stage is effectively offline.")
      else if 0.7 ≤ final.short_fraction ∧ final.demand_over_supply.geQ 2 = true then
        if (0 < raw_supply ∧ raw_demand_over_supply.ltQ 0.2 = true)
            ∧ (0 < processing_count
               ∧ (processing_active < 0.4 ∨ processing_fill < 0.35)) then
          some ("CHAIN_PROCESSING_BOTTLENECK",
            "Final good is short in most markets while raw inputs are abundant; processing health is weak (active="
              ++ fmtPct0 processing_active ++ ", labor_fill="
              ++ fmtPct0 processing_fill ++ ").")
        else
          some ("SYSTEMIC_SHORTAGE",
            "Final good shortage appears in most active markets, indicating broad under-supply not isolated to one market.")
      else if 0.7 ≤ final.excess_fraction ∧ final.supply_over_demand.geQ 2 = true then
        some ("SYSTEMIC_OVERSUPPLY",
          "Final good is in excess across most active markets; demand pull is weak versus available supply.")
      else if (0.3 ≤ final.short_fraction ∧ final.short_fraction ≤ 0.7)
          ∧ (0.3 ≤ final.excess_fraction ∧ final.excess_fraction ≤ 0.7)
          ∧ final.price_cv_ge 0.6 = true then
        some ("LOCALIZED_DISTRIBUTION_IMBALANCE",
          "Mixed shortage/excess by market with high cross-market price dispersion suggests routing/distribution fragmentation.")
      else
        some ("MIXED", "No single dominant failure mode from this snapshot.")
  | _, _ => Option.none

/-- The static chain registry `CHAIN_DEFS` of the source. -/
def CHAIN_DEFS : List ChainDef :=
  [⟨"Food",
    [⟨"Raw grain", ["wheat", "rye", "barley", "rice_grain"],
      ["farm", "rye_farm", "barley_farm", "rice_paddy"]⟩,
     ⟨"Flour", ["flour"], ["mill", "rye_mill", "barley_mill"]⟩,
     ⟨"Bread", ["bread"], ["bakery", "rice_mill"]⟩]⟩,
   ⟨"Beer",
    [⟨"Barley", ["barley"], ["barley_farm"]⟩,
     ⟨"Malt", ["malt"], ["malthouse"]⟩,
     ⟨"Beer", ["beer"], ["brewery"]⟩]⟩,
   ⟨"Tools",
    [⟨"Iron ore", ["iron_ore"], ["mine"]⟩,
     ⟨"Iron", ["iron"], ["smelter"]⟩,
     ⟨"Tools", ["tools"], ["smithy"]⟩]⟩,
   ⟨"Jewelry",
    [⟨"Gold ore", ["gold_ore"], ["gold_mine"]⟩,
     ⟨"Gold", ["gold"], ["refinery"]⟩,
     ⟨"Jewelry", ["jewelry"], ["jeweler"]⟩]⟩,
   ⟨"Furniture",
    [⟨"Timber", ["timber"], ["lumber_camp"]⟩,
     ⟨"Lumber", ["lumber"], ["sawmill"]⟩,
     ⟨"Furniture", ["furniture"], ["workshop"]⟩]⟩,
   ⟨"Clothing",
    [⟨"Sheep", ["sheep"], ["ranch"]⟩,
     ⟨"Wool", ["wool"], ["shearing_shed"]⟩,
     ⟨"Cloth", ["cloth"], ["spinning_mill"]⟩,
     ⟨"Clothes", ["clothes"], ["tailor"]⟩]⟩,
   ⟨"Dairy",
    [⟨"Goats", ["goats"], ["goat_farm"]⟩,
     ⟨"Milk", ["milk"], ["dairy"]⟩,
     ⟨"Cheese", ["cheese"], ["creamery"]⟩]⟩,
   ⟨"Leatherwork",
    [⟨"Hides", ["hides"], ["hide_farm"]⟩,
     ⟨"Leather", ["leather"], ["tannery"]⟩,
     ⟨"Shoes", ["shoes"], ["cobbler"]⟩]⟩,
   ⟨"Copperwork",
    [⟨"Copper ore", ["copper_ore"], ["copper_mine"]⟩,
     ⟨"Copper", ["copper"], ["copper_smelter"]⟩,
     ⟨"Cookware", ["cookware"], ["coppersmith"]⟩]⟩,
   ⟨"Salt",
    [⟨"Raw salt", ["raw_salt"], ["salt_works"]⟩,
     ⟨"Salt", ["salt"], ["salt_warehouse"]⟩]⟩,
   ⟨"Sugar",
    [⟨"Sugarcane", ["sugarcane"], ["sugar_plantation"]⟩,
     ⟨"Cane juice", ["cane_juice"], ["sugar_press"]⟩,
     ⟨"Sugar", ["sugar"], ["sugar_refinery"]⟩]⟩,
   ⟨"Spices",
    [⟨"Spice plants", ["spice_plants"], ["spice_farm"]⟩,
     ⟨"Spices", ["spices"], ["spice_house"]⟩]⟩,
   ⟨"Dyed clothes",
    [⟨"Dye plants", ["dye_plants"], ["dye_farm"]⟩,
     ⟨"Dye", ["dye"], ["dye_works"]⟩,
     ⟨"Cloth", ["cloth"], ["spinning_mill"]⟩,
     ⟨"Dyed clothes", ["dyed_clothes"], ["dyer"]⟩]⟩]

/-- The dump's top-level `summary` block, reduced to the fields
`print_global_section` reads; each field is `none` when the key is missing. -/
structure Summary where
  totalMarketSupply : Option PyVal := Option.none
  totalMarketDemand : Option PyVal := Option.none
  totalMarketVolume : Option PyVal := Option.none
  totalPendingOrders : Option PyVal := Option.none
  totalConsignmentLots : Option PyVal := Option.none
  deriving DecidableEq, Repr

/-- `safe_float(summary.get("totalMarketSupply", 0.0))`. -/
def summary_total_supply (s : Summary) : ℚ :=
  safe_float (s.totalMarketSupply.getD (PyVal.vnum 0))

/-- `safe_float(summary.get("totalMarketDemand", 0.0))`. -/
def summary_total_demand (s : Summary) : ℚ :=
  safe_float (s.totalMarketDemand.getD (PyVal.vnum 0))

/-- `safe_float(summary.get("totalMarketVolume", 0.0))`. -/
def summary_total_volume (s : Summary) : ℚ :=
  safe_float (s.totalMarketVolume.getD (PyVal.vnum 0))

/-- The `fill` value computed by `print_global_section`:
`total_volume / total_demand if total_demand > 0 else 1.0`. -/
def global_fill (s : Summary) : ℚ :=
  if 0 < summary_total_demand s then
    summary_total_volume s / summary_total_demand s
  else 1

/-- The `demand_over_supply` value computed by `print_global_section`:
`total_demand / total_supply if total_supply > 0 else math.inf`. -/
def global_demand_over_supply (s : Summary) : ERat :=
  if 0 < summary_total_supply s then
    ERat.fin (summary_total_demand s / summary_total_supply s)
  else ERat.inf

/-- The per-good per-market bookkeeping invariant maintained by
`aggregate_goods`: the `elif` makes the short and excess tests mutually
exclusive inside one market, so together they never exceed the active count. -/
def GoodInvariant (gm : GoodMetrics) : Prop :=
  gm.short_markets + gm.excess_markets ≤ gm.active_markets

/-- A synthetic two-stage chain used to evaluate the classifier. -/
def wChainA : ChainDef :=
  ⟨"WitnessA", [⟨"Raw", ["w_ore"], ["w_mine"]⟩, ⟨"Out", ["w_metal"], ["w_smelter"]⟩]⟩

/-- A goods mapping whose final good is broadly short while raw input is
abundant. -/
def wGoodsShort : List (String × GoodMetrics) :=
  [("w_metal", { supply := 100, demand := 300, active_markets := 10, short_markets := 8 }),
   ("w_ore", { supply := 1000, demand := 50 })]

/-- A facility mapping whose single processing type is mostly inactive. -/
def wFacsWeak : List (PyVal × FacilityMetrics) :=
  [(PyVal.vstr "w_smelter", { count := 10, active_count := 2, workers := 10, labor_required := 100 })]

/-- A goods mapping with final-good demand but no supply anywhere. -/
def wGoodsGap : List (String × GoodMetrics) := [("w_metal", { demand := 5 })]

/-- One market offering and demanding bread, short (demand 10 vs supply 1). -/
def wMarketBread : Market :=
  { goods := [("bread", { supply := some (PyVal.vnum 1), demand := some (PyVal.vnum 10) })] }

/-- The metrics `aggregate_goods` produces for bread from `wMarketBread`. -/
def wBreadMetrics : GoodMetrics :=
  { supply := 1, demand := 10, volume := 0, prices := [0],
    active_markets := 1, short_markets := 1, excess_markets := 0 }

theorem updateGood_invariant (gm : GoodMetrics) (p : GoodPayload)
    (h : GoodInvariant gm) : GoodInvariant (updateGood gm p) := by
  dsimp only [GoodInvariant, updateGood] at *
  split_ifs <;> simp <;> omega

theorem alistUpdate_forall {α β : Type} [DecidableEq α] (P : β → Prop) (k : α)
    (d : β) (f : β → β) (l : List (α × β)) (hl : ∀ q ∈ l, P q.2) (hd : P (f d))
    (hf : ∀ v, P v → P (f v)) : ∀ q ∈ alistUpdate k d f l, P q.2 := by
  induction l with
  | nil =>
      intro q hq
      simp only [alistUpdate, List.mem_singleton] at hq
      subst hq; exact hd
  | cons hd' tl ih =>
      intro q hq
      obtain ⟨k', v⟩ := hd'
      simp only [alistUpdate] at hq
      split_ifs at hq with hk
      · rcases List.mem_cons.mp hq with h | h
        · subst h; exact hf v (hl (k', v) (List.mem_cons_self _ _))
        · exact hl q (List.mem_cons_of_mem _ h)
      · rcases List.mem_cons.mp hq with h | h
        · subst h; exact hl (k', v) (List.mem_cons_self _ _)
        · exact ih (fun q hq => hl q (List.mem_cons_of_mem _ hq)) q h

theorem foldl_preserves {σ α : Type} (step : σ → α → σ) (Inv : σ → Prop)
    (h : ∀ s a, Inv s → Inv (step s a)) :
    ∀ (l : List α) (s : σ), Inv s → Inv (l.foldl step s) := by
  intro l
  induction l with
  | nil => intro s hs; exact hs
  | cons a t ih => intro s hs; exact ih (step s a) (h s a hs)

theorem aggregate_goods_invariant (markets : List Market) :
    ∀ q ∈ aggregate_goods markets, GoodInvariant q.2 := by
  unfold aggregate_goods
  refine foldl_preserves _
    (fun l : List (String × GoodMetrics) => ∀ q ∈ l, GoodInvariant q.2) ?_ markets [] ?_
  · intro acc m hacc
    refine foldl_preserves _
      (fun l : List (String × GoodMetrics) => ∀ q ∈ l, GoodInvariant q.2) ?_ m.goods acc hacc
    intro acc2 kv h2
    refine alistUpdate_forall _ _ _ _ _ h2 ?_ ?_
    · exact updateGood_invariant {} kv.2 (by simp [GoodInvariant])
    · exact fun v hv => updateGood_invariant v kv.2 hv
  · intro q hq; simp at hq

theorem alistGet?_mem {α β : Type} [DecidableEq α] {k : α} {v : β}
    {l : List (α × β)} (h : alistGet? k l = some v) : (k, v) ∈ l := by
  induction l with
  | nil => simp [alistGet?] at h
  | cons hd tl ih =>
      obtain ⟨k', v'⟩ := hd
      simp only [alistGet?] at h
      split_ifs at h with hk
      · obtain rfl : v' = v := Option.some.injEq _ _ ▸ h
        subst hk; exact List.mem_cons_self _ _
      · exact List.mem_cons_of_mem _ (ih h)

/-- C4 (counterexample): a `GoodMetrics` with `supply = 1 > 0` and
`demand = 0` also has `demand_over_supply = 0.0`, so the ratio is *not* `0.0`
only when both supply and demand are nonpositive. -/
theorem C4_zero_ratio_counterexample :
    GoodMetrics.demand_over_supply { supply := 1 } = ERat.fin 0 ∧
      ¬(({ supply := 1 } : GoodMetrics).supply ≤ 0) := by
  constructor
  · norm_num [GoodMetrics.demand_over_supply]
  · norm_num

/-- C4 (amended): `demand_over_supply` is `inf` exactly when `supply ≤ 0` and
`demand > 0`; it is `0.0` exactly when either both supply and demand are
nonpositive, or supply is positive and demand is exactly zero. -/
theorem C4_demand_over_supply_characterization (gm : GoodMetrics) :
    (gm.demand_over_supply = ERat.inf ↔ gm.supply ≤ 0 ∧ 0 < gm.demand) ∧
    (gm.demand_over_supply = ERat.fin 0 ↔
      (gm.supply ≤ 0 ∧ gm.demand ≤ 0) ∨ (0 < gm.supply ∧ gm.demand = 0)) := by
  unfold GoodMetrics.demand_over_supply
  rcases le_or_lt gm.supply 0 with h1 | h1
  · rcases le_or_lt gm.demand 0 with h2 | h2
    · rw [if_pos h1, if_neg (not_lt.mpr h2)]
      constructor
      · constructor
        · intro h; exact absurd h (by simp)
        · rintro ⟨-, hd⟩; exact absurd h2 (not_le.mpr hd)
      · simp [h1, h2]
    · rw [if_pos h1, if_pos h2]
      constructor
      · simp [h1, h2]
      · constructor
        · intro h; exact absurd h (by simp)
        · rintro (⟨-, hd⟩ | ⟨hs, -⟩)
          · exact absurd h2 (not_lt.mpr hd)
          · exact absurd h1 (not_le.mpr hs)
  · rw [if_neg (not_le.mpr h1)]
    constructor
    · constructor
      · intro h; exact absurd h (by simp)
      · rintro ⟨hs, -⟩; exact absurd h1 (not_lt.mpr hs)
    · rw [show (ERat.fin (gm.demand / gm.supply) = ERat.fin 0) ↔
            gm.demand / gm.supply = 0 from by simp]
      rw [div_eq_zero_iff]
      constructor
      · rintro (hd | hs)
        · exact Or.inr ⟨h1, hd⟩
        · exact absurd hs (ne_of_gt h1)
      · rintro (⟨hs, -⟩ | ⟨-, hd⟩)
        · exact absurd h1 (not_lt.mpr hs)
        · exact Or.inl hd

/-- C3 (counterexample): an all-missing summary block has nonpositive total
supply and total demand, yet the global `demand/supply` ratio is `inf`, not
the `0.0` the per-good convention of §3 would give. -/
theorem C3_global_ratio_counterexample :
    summary_total_supply {} ≤ 0 ∧ summary_total_demand {} ≤ 0 ∧
      global_demand_over_supply {} = ERat.inf ∧
      (ERat.inf : ERat) ≠ ERat.fin 0 := by
  refine ⟨by norm_num [summary_total_supply, safe_float],
          by norm_num [summary_total_demand, safe_float], ?_, by simp⟩
  norm_num [global_demand_over_supply, summary_total_supply, safe_float]

/-- C3 (amended): the global fill is `volume/demand` with `1.0` when
`demand ≤ 0`, as the spec says; but the global `demand/supply` ratio is
infinite exactly when total supply is nonpositive — including when total
demand is also nonpositive, where the per-good §3 convention would give
`0.0` — and equals `demand/supply` otherwise. -/
theorem C3_global_signal_conventions (s : Summary) :
    (summary_total_demand s ≤ 0 → global_fill s = 1) ∧
    (0 < summary_total_demand s →
      global_fill s = summary_total_volume s / summary_total_demand s) ∧
    (global_demand_over_supply s = ERat.inf ↔ summary_total_supply s ≤ 0) ∧
    (0 < summary_total_supply s →
      global_demand_over_supply s =
        ERat.fin (summary_total_demand s / summary_total_supply s)) := by
  unfold global_fill global_demand_over_supply
  refine ⟨fun h => if_neg (not_lt.mpr h), fun h => if_pos h, ?_, fun h => if_pos h⟩
  constructor
  · intro h
    by_contra hs
    rw [if_pos (not_le.mp hs)] at h
    exact absurd h (by simp)
  · intro h
    rw [if_neg (not_lt.mpr h)]

/-- Witness for C3: a concrete summary with demand 8 and volume 4 has global
fill `4/8`, by the amended theorem. -/
theorem C3_global_signal_conventions_witness :
    global_fill { totalMarketDemand := some (PyVal.vnum 8),
                  totalMarketVolume := some (PyVal.vnum 4) } =
      summary_total_volume { totalMarketDemand := some (PyVal.vnum 8),
                             totalMarketVolume := some (PyVal.vnum 4) } /
        summary_total_demand { totalMarketDemand := some (PyVal.vnum 8),
                               totalMarketVolume := some (PyVal.vnum 4) } :=
  (C3_global_signal_conventions _).2.1 (by norm_num [summary_total_demand, safe_float])

/-- C9: the classifier is a pure function of its three inputs — two
invocations on identical chain, goods mapping and facility mapping yield the
identical `(label, rationale)` result (the embedding is functional, so the
input mappings cannot be modified). -/
theorem C9_classify_chain_deterministic (c1 c2 : ChainDef)
    (g1 g2 : List (String × GoodMetrics)) (f1 f2 : List (PyVal × FacilityMetrics))
    (hc : c1 = c2) (hg : g1 = g2) (hf : f1 = f2) :
    classify_chain c1 g1 f1 = classify_chain c2 g2 f2 := by
  rw [hc, hg, hf]

/-- Witness for C9 at a concrete chain and mappings. -/
theorem C9_classify_chain_deterministic_witness :
    classify_chain wChainA wGoodsShort wFacsWeak =
      classify_chain wChainA wGoodsShort wFacsWeak :=
  C9_classify_chain_deterministic _ _ _ _ _ _ rfl rfl rfl

/-- C8: in the fold step of `aggregate_goods`, a market contributes to a
good's `active_markets` exactly when the coerced supply or demand is strictly
positive; otherwise neither the active, short nor excess count changes
(regardless of the payload's volume). -/
theorem C8_active_markets_iff_positive (gm : GoodMetrics) (p : GoodPayload) :
    if 0 < payload_supply p ∨ 0 < payload_demand p then
      (updateGood gm p).active_markets = gm.active_markets + 1
    else
      (updateGood gm p).active_markets = gm.active_markets ∧
      (updateGood gm p).short_markets = gm.short_markets ∧
      (updateGood gm p).excess_markets = gm.excess_markets := by
  dsimp only [updateGood]
  split_ifs <;> simp

/-- Witness for C8: a zero supply/demand payload carrying positive volume
leaves all three market counts unchanged. -/
theorem C8_active_markets_iff_positive_witness :
    if 0 < payload_supply { volume := some (PyVal.vnum 7) } ∨
        0 < payload_demand { volume := some (PyVal.vnum 7) } then
      (updateGood {} { volume := some (PyVal.vnum 7) }).active_markets = 0 + 1
    else
      (updateGood {} { volume := some (PyVal.vnum 7) }).active_markets = 0 ∧
      (updateGood {} { volume := some (PyVal.vnum 7) }).short_markets = 0 ∧
      (updateGood {} { volume := some (PyVal.vnum 7) }).excess_markets = 0 :=
  C8_active_markets_iff_positive {} { volume := some (PyVal.vnum 7) }

/-- C5 (counterexample): contrary to the claim's existential part, no list of
market records aggregates to a good with
`short_markets + excess_markets > active_markets` — the `elif` makes the
short and excess tests mutually exclusive within each market. -/
theorem C5_no_overcount :
    ¬ ∃ (markets : List Market) (g : String) (gm : GoodMetrics),
        alistGet? g (aggregate_goods markets) = some gm ∧
        gm.active_markets < gm.short_markets + gm.excess_markets := by
  rintro ⟨ms, g, gm, h, hlt⟩
  have hinv := aggregate_goods_invariant ms (g, gm) (alistGet?_mem h)
  dsimp only [GoodInvariant] at hinv
  omega

/-- C5 (amended): every aggregated good satisfies
`short_markets ≤ active_markets` and `excess_markets ≤ active_markets`, and
the stronger `short_markets + excess_markets ≤ active_markets` is guaranteed
as well. -/
theorem C5_market_count_bounds (markets : List Market) (g : String)
    (gm : GoodMetrics) (h : alistGet? g (aggregate_goods markets) = some gm) :
    gm.short_markets ≤ gm.active_markets ∧
    gm.excess_markets ≤ gm.active_markets ∧
    gm.short_markets + gm.excess_markets ≤ gm.active_markets := by
  have hinv := aggregate_goods_invariant markets (g, gm) (alistGet?_mem h)
  dsimp only [GoodInvariant] at hinv
  omega

/-- Witness for C5: one short bread market aggregates to `wBreadMetrics`,
which satisfies the count bounds. -/
theorem C5_market_count_bounds_witness :
    wBreadMetrics.short_markets ≤ wBreadMetrics.active_markets ∧
    wBreadMetrics.excess_markets ≤ wBreadMetrics.active_markets ∧
    wBreadMetrics.short_markets + wBreadMetrics.excess_markets ≤
      wBreadMetrics.active_markets :=
  C5_market_count_bounds [wMarketBread] "bread" wBreadMetrics (by
    norm_num [aggregate_goods, updateGood, alistUpdate, alistGet?, payload_supply,
      payload_demand, payload_volume, payload_price, safe_float, wMarketBread,
      wBreadMetrics])

/-- C6: every aggregated good has `short_fraction` and `excess_fraction` in
`[0, 1]`, and both are `0` when there are no active markets. -/
theorem C6_fraction_bounds (markets : List Market) (g : String)
    (gm : GoodMetrics) (h : alistGet? g (aggregate_goods markets) = some gm) :
    0 ≤ gm.short_fraction ∧ gm.short_fraction ≤ 1 ∧
    0 ≤ gm.excess_fraction ∧ gm.excess_fraction ≤ 1 ∧
    (gm.active_markets = 0 → gm.short_fraction = 0 ∧ gm.excess_fraction = 0) := by
  have hinv := aggregate_goods_invariant markets (g, gm) (alistGet?_mem h)
  dsimp only [GoodInvariant] at hinv
  unfold GoodMetrics.short_fraction GoodMetrics.excess_fraction
  split_ifs with h0
  · norm_num
  · have hpos : (0 : ℚ) < (gm.active_markets : ℚ) := by
      exact_mod_cast Nat.pos_of_ne_zero h0
    refine ⟨div_nonneg (by positivity) hpos.le, ?_,
            div_nonneg (by positivity) hpos.le, ?_, fun hz => absurd hz h0⟩
    · rw [div_le_one hpos]
      exact_mod_cast le_trans (Nat.le_add_right _ _) hinv
    · rw [div_le_one hpos]
      exact_mod_cast le_trans (Nat.le_add_left _ _) hinv

/-- Witness for C6: the fractions of the aggregated bread metrics lie in
`[0, 1]`. -/
theorem C6_fraction_bounds_witness :
    0 ≤ wBreadMetrics.short_fraction ∧ wBreadMetrics.short_fraction ≤ 1 ∧
    0 ≤ wBreadMetrics.excess_fraction ∧ wBreadMetrics.excess_fraction ≤ 1 ∧
    (wBreadMetrics.active_markets = 0 →
      wBreadMetrics.short_fraction = 0 ∧ wBreadMetrics.excess_fraction = 0) :=
  C6_fraction_bounds [wMarketBread] "bread" wBreadMetrics (by
    norm_num [aggregate_goods, updateGood, alistUpdate, alistGet?, payload_supply,
      payload_demand, payload_volume, payload_price, safe_float, wMarketBread,
      wBreadMetrics])

/-- C10: the facility aggregator's fold step skips a record exactly when the
truthiness of its `type` value is false; the falsy values are precisely a
missing field, `None`, `False`, `0`, and the empty string; a skipped record
changes nothing, and a truthy-typed record folds into its type's metrics
(in particular its `count` rises by one). -/
theorem C10_facility_skip_iff_falsy (facs : List (PyVal × FacilityMetrics))
    (e : FacilityEntry) :
    (truthyOpt e.type = false ↔
      (e.type = Option.none ∨ e.type = some PyVal.vnone ∨
       e.type = some (PyVal.vbool false) ∨ e.type = some (PyVal.vnum 0) ∨
       e.type = some (PyVal.vstr ""))) ∧
    (truthyOpt e.type = false → facStep facs e = facs) ∧
    (∀ t, e.type = some t → t.truthy = true →
      alistGet? t (facStep facs e) =
        some (facUpdate ((alistGet? t facs).getD {}) e)) := by
  refine ⟨?_, ?_, ?_⟩
  · rcases he : e.type with - | v
    · simp [truthyOpt]
    · cases v with
      | vnone => simp [truthyOpt, PyVal.truthy]
      | vbool b => cases b <;> simp [truthyOpt, PyVal.truthy]
      | vnum q => simp [truthyOpt, PyVal.truthy]
      | vstr s => simp [truthyOpt, PyVal.truthy]
  · intro hf
    rcases he : e.type with - | v
    · simp [facStep, he]
    · rw [he] at hf
      simp only [truthyOpt] at hf
      simp [facStep, he, hf]
  · intro t ht htr
    simp only [facStep, ht, htr, if_pos]
    have : ∀ (l : List (PyVal × FacilityMetrics)),
        alistGet? t (alistUpdate t {} (fun fm => facUpdate fm e) l) =
          some (facUpdate ((alistGet? t l).getD {}) e) := by
      intro l
      induction l with
      | nil => simp [alistUpdate, alistGet?]
      | cons hd tl ih =>
          obtain ⟨k, v⟩ := hd
          by_cases hk : k = t
          · subst hk; simp [alistUpdate, alistGet?]
          · simp [alistUpdate, alistGet?, hk, ih]
    exact this facs

/-- Witness for C10: a record whose `type` is the empty string (present but
falsy) is skipped, and the enumeration of falsy values holds for it. -/
theorem C10_facility_skip_iff_falsy_witness :
    (truthyOpt (some (PyVal.vstr "")) = false ↔
      ((some (PyVal.vstr "") : Option PyVal) = Option.none ∨
       (some (PyVal.vstr "") : Option PyVal) = some PyVal.vnone ∨
       (some (PyVal.vstr "") : Option PyVal) = some (PyVal.vbool false) ∨
       (some (PyVal.vstr "") : Option PyVal) = some (PyVal.vnum 0) ∨
       (some (PyVal.vstr "") : Option PyVal) = some (PyVal.vstr ""))) ∧
    (truthyOpt (some (PyVal.vstr "")) = false →
      facStep [] { type := some (PyVal.vstr "") } = []) ∧
    (∀ t, ({ type := some (PyVal.vstr "") } : FacilityEntry).type = some t →
      t.truthy = true →
      alistGet? t (facStep [] { type := some (PyVal.vstr "") }) =
        some (facUpdate ((alistGet? t ([] : List (PyVal × FacilityMetrics))).getD {})
          { type := some (PyVal.vstr "") })) :=
  C10_facility_skip_iff_falsy [] { type := some (PyVal.vstr "") }

/-- C7: looking up goods absent from the mappings never fails and acts as a
zero-valued record; in particular a chain whose final good and first-stage
goods are all absent from the goods mapping classifies as `NO_SIGNAL`. -/
theorem C7_absent_goods (chain : ChainDef) (goods : List (String × GoodMetrics))
    (facilities : List (PyVal × FacilityMetrics)) (fg : String)
    (hfg : chain.final_good? = some fg)
    (habs : alistGet? fg goods = Option.none)
    (hraw : ∀ g ∈ chain.raw_goods, alistGet? g goods = Option.none) :
    classify_chain chain goods facilities =
      some ("NO_SIGNAL", "No demand and no supply in this dump.") := by
  obtain ⟨ls, hls, hfg'⟩ := Option.bind_eq_some.mp hfg
  obtain ⟨st0, hst0⟩ : ∃ st0, chain.stages.head? = some st0 := by
    cases hst : chain.stages with
    | nil => rw [hst] at hls; simp at hls
    | cons a t => exact ⟨a, by simp [hst]⟩
  unfold classify_chain
  rw [hst0, hls]
  dsimp only
  rw [hfg']
  dsimp only
  rw [habs]
  rw [if_pos]
  simp

/-- Witness for C7: the synthetic chain with an empty goods mapping is
classified `NO_SIGNAL`. -/
theorem C7_absent_goods_witness :
    classify_chain wChainA [] [] =
      some ("NO_SIGNAL", "No demand and no supply in this dump.") :=
  C7_absent_goods wChainA [] [] "w_metal" (by rfl) (by rfl)
    (fun g hg => by rfl)

/-- C2: when the final good has nonpositive supply and positive demand, the
classifier returns `SYSTEMIC_UPSTREAM_GAP` if the first-stage aggregate
supply is nonpositive and `CHAIN_CONVERSION_BOTTLENECK` if it is positive;
rules 4-7 are never reached. -/
theorem C2_zero_supply_rules (chain : ChainDef) (goods : List (String × GoodMetrics))
    (facilities : List (PyVal × FacilityMetrics)) (fg : String) (st0 : ChainStage)
    (hfg : chain.final_good? = some fg)
    (hst0 : chain.stages.head? = some st0)
    (hsup : ((alistGet? fg goods).getD {}).supply ≤ 0)
    (hdem : 0 < ((alistGet? fg goods).getD {}).demand) :
    ((stage_totals goods st0.goods).1 ≤ 0 →
      classify_chain chain goods facilities =
        some ("SYSTEMIC_UPSTREAM_GAP",
          "Demand exists but zero supply and zero upstream raw supply on-map; likely import/exogenous availability gap.")) ∧
    (0 < (stage_totals goods st0.goods).1 →
      classify_chain chain goods facilities =
        some ("CHAIN_CONVERSION_BOTTLENECK",
          "Demand exists with zero final supply despite upstream presence; conversion stage is effectively offline.")) := by
  obtain ⟨ls, hls, hfg'⟩ := Option.bind_eq_some.mp hfg
  unfold classify_chain
  rw [hst0, hls]
  dsimp only
  rw [hfg']
  dsimp only
  constructor
  · intro hraw
    rw [if_neg (by rintro ⟨h1, -⟩; exact absurd hdem (not_lt.mpr h1)),
        if_pos ⟨hsup, hdem⟩, if_pos hraw]
  · intro hraw
    rw [if_neg (by rintro ⟨h1, -⟩; exact absurd hdem (not_lt.mpr h1)),
        if_pos ⟨hsup, hdem⟩, if_neg (not_le.mpr hraw)]

/-- Witness for C2: demand 5 and no supply anywhere yields
`SYSTEMIC_UPSTREAM_GAP`. -/
theorem C2_zero_supply_rules_witness :
    classify_chain wChainA wGoodsGap [] =
      some ("SYSTEMIC_UPSTREAM_GAP",
        "Demand exists but zero supply and zero upstream raw supply on-map; likely import/exogenous availability gap.") :=
  (C2_zero_supply_rules wChainA wGoodsGap [] "w_metal" ⟨"Raw", ["w_ore"], ["w_mine"]⟩
    (by rfl) (by rfl)
    (by norm_num [alistGet?, wGoodsGap])
    (by norm_num [alistGet?, wGoodsGap])).1
    (by simp [stage_totals, alistGet?, wGoodsGap])

/-- C1: when rules 1-3 do not apply and the final good satisfies
`short_fraction ≥ 0.7` with demand/supply ratio `≥ 2.0`, the classifier
returns `CHAIN_PROCESSING_BOTTLENECK` iff the first-stage aggregate raw
supply is positive with `raw_demand/raw_supply < 0.2` and the labor-weighted
facility health over the after-first stages has positive total count with
weighted `active_ratio < 0.4` or weighted `labor_fill < 0.35`; in every
other such case it returns `SYSTEMIC_SHORTAGE`. -/
theorem C1_rule4_dichotomy (chain : ChainDef) (goods : List (String × GoodMetrics))
    (facilities : List (PyVal × FacilityMetrics)) (fg : String) (st0 : ChainStage)
    (hfg : chain.final_good? = some fg)
    (hst0 : chain.stages.head? = some st0)
    (hno1 : ¬(((alistGet? fg goods).getD {}).demand ≤ 0 ∧
              ((alistGet? fg goods).getD {}).supply ≤ 0))
    (hno2 : ¬(((alistGet? fg goods).getD {}).supply ≤ 0 ∧
              0 < ((alistGet? fg goods).getD {}).demand))
    (hshort : 0.7 ≤ ((alistGet? fg goods).getD {}).short_fraction)
    (hds : ((alistGet? fg goods).getD {} : GoodMetrics).demand_over_supply.geQ 2 = true) :
    ((classify_chain chain goods facilities).map Prod.fst =
        some "CHAIN_PROCESSING_BOTTLENECK" ↔
      (0 < (stage_totals goods st0.goods).1 ∧
       (stage_totals goods st0.goods).2.1 / (stage_totals goods st0.goods).1 < 0.2 ∧
       0 < (weighted_facility_health facilities (processingFacilityIds chain)).2.2 ∧
       ((weighted_facility_health facilities (processingFacilityIds chain)).1 < 0.4 ∨
        (weighted_facility_health facilities (processingFacilityIds chain)).2.1 < 0.35))) ∧
    (¬(0 < (stage_totals goods st0.goods).1 ∧
       (stage_totals goods st0.goods).2.1 / (stage_totals goods st0.goods).1 < 0.2 ∧
       0 < (weighted_facility_health facilities (processingFacilityIds chain)).2.2 ∧
       ((weighted_facility_health facilities (processingFacilityIds chain)).1 < 0.4 ∨
        (weighted_facility_health facilities (processingFacilityIds chain)).2.1 < 0.35)) →
      classify_chain chain goods facilities =
        some ("SYSTEMIC_SHORTAGE",
          "Final good shortage appears in most active markets, indicating broad under-supply not isolated to one market.")) := by
  obtain ⟨ls, hls, hfg'⟩ := Option.bind_eq_some.mp hfg
  unfold classify_chain
  rw [hst0, hls]
  dsimp only
  rw [hfg']
  dsimp only
  rw [if_neg (by rintro ⟨h1, h2⟩; exact hno1 ⟨h1, h2⟩),
      if_neg (by rintro ⟨h1, h2⟩; exact hno2 ⟨h1, h2⟩),
      if_pos ⟨hshort, hds⟩]
  have hcond :
      ((0 < (stage_totals goods st0.goods).1 ∧
        ERat.ltQ (if 0 < (stage_totals goods st0.goods).1 then
            ERat.fin ((stage_totals goods st0.goods).2.1 / (stage_totals goods st0.goods).1)
          else ERat.inf) 0.2 = true) ∧
       (0 < (weighted_facility_health facilities (processingFacilityIds chain)).2.2 ∧
        ((weighted_facility_health facilities (processingFacilityIds chain)).1 < 0.4 ∨
         (weighted_facility_health facilities (processingFacilityIds chain)).2.1 < 0.35))) ↔
      (0 < (stage_totals goods st0.goods).1 ∧
       (stage_totals goods st0.goods).2.1 / (stage_totals goods st0.goods).1 < 0.2 ∧
       0 < (weighted_facility_health facilities (processingFacilityIds chain)).2.2 ∧
       ((weighted_facility_health facilities (processingFacilityIds chain)).1 < 0.4 ∨
        (weighted_facility_health facilities (processingFacilityIds chain)).2.1 < 0.35)) := by
    constructor
    · rintro ⟨⟨hrs, hlt⟩, hw⟩
      rw [if_pos hrs] at hlt
      exact ⟨hrs, by simpa [ERat.ltQ] using hlt, hw.1, hw.2⟩
    · rintro ⟨hrs, hlt, hc, hw⟩
      exact ⟨⟨hrs, by rw [if_pos hrs]; simpa [ERat.ltQ] using hlt⟩, hc, hw⟩
  constructor
  · by_cases hc : (0 < (stage_totals goods st0.goods).1 ∧
       (stage_totals goods st0.goods).2.1 / (stage_totals goods st0.goods).1 < 0.2 ∧
       0 < (weighted_facility_health facilities (processingFacilityIds chain)).2.2 ∧
       ((weighted_facility_health facilities (processingFacilityIds chain)).1 < 0.4 ∨
        (weighted_facility_health facilities (processingFacilityIds chain)).2.1 < 0.35))
    · rw [if_pos (hcond.mpr hc)]
      simp [hc]
    · rw [if_neg (fun h => hc (hcond.mp h))]
      simp [hc]
  · intro hnc
    rw [if_neg (fun h => hnc (hcond.mp h))]

/-- Witness for C1: a broadly short final good (short fraction 0.8, ratio 3)
with abundant raw input (ratio 0.05) and weak processing (active 20%,
labor fill 10%) is classified `CHAIN_PROCESSING_BOTTLENECK`. -/
theorem C1_rule4_dichotomy_witness :
    (classify_chain wChainA wGoodsShort wFacsWeak).map Prod.fst =
      some "CHAIN_PROCESSING_BOTTLENECK" :=
  (C1_rule4_dichotomy wChainA wGoodsShort wFacsWeak "w_metal"
    ⟨"Raw", ["w_ore"], ["w_mine"]⟩ (by rfl) (by rfl)
    (by norm_num [alistGet?, wGoodsShort])
    (by norm_num [alistGet?, wGoodsShort])
    (by norm_num [alistGet?, wGoodsShort, GoodMetrics.short_fraction])
    (by norm_num [alistGet?, wGoodsShort, GoodMetrics.demand_over_supply, ERat.geQ])).1.mpr
    (by
      refine ⟨?_, ?_, ?_, ?_⟩ <;>
        simp [stage_totals, weighted_facility_health, processingFacilityIds,
          alistGet?, wGoodsShort, wFacsWeak, wChainA, FacilityMetrics.active_ratio,
          FacilityMetrics.labor_fill] <;> norm_num)
